import Mathlib

/-!
# FEC netlink handlers (net/ethtool/fec.c)

A shallow embedding of the three FEC_GET callbacks (`fec_prepare_data`,
`fec_reply_size`, `fec_fill_reply`) and of the FEC_SET handler
(`ethnl_set_fec`).

Every function of fec.c is a straight-line sequence of calls into the rest of
the kernel (netlink parsing, device lookup, locking, the driver callbacks, the
bitset codec, the notifier).  Those callees are not part of fec.c; they are
taken as parameters.  Each model returns, next to the C return value, the
ordered list of calls it made (`Call`), so that statements about "is called",
"is called once" and "is called before" are statements about that list.

No callee is invoked twice in one run of any function of fec.c, so giving each
callee one (arbitrary) outcome per run loses no behaviour of a stateful callee.
-/

namespace Fec

/-! ## Data -/

/-- The uapi struct ethtool_fecparam: four u32 fields. -/
structure ethtool_fecparam where
  cmd : Nat
  active_fec : Nat
  fec : Nat
  reserved : Nat
  deriving DecidableEq, Repr

/-- The two members of struct ethtool_ops that fec.c reads.  A NULL function
pointer is `none`.  `get_fecparam(dev, &fec)` fills the struct it is handed and
returns an int; `set_fecparam(dev, &fec)` returns an int. -/
structure ethtool_ops where
  get_fecparam : Option (ethtool_fecparam → Int × ethtool_fecparam)
  set_fecparam : Option (ethtool_fecparam → Int)

/-- The one member of struct net_device that fec.c reads. -/
structure net_device where
  ethtool_ops : ethtool_ops

/-- The one member of struct ethnl_req_info that the GET callbacks read
(a u32 flags word). -/
structure ethnl_req_info where
  flags : Nat

/-- The one member of struct ethnl_reply_data that fec.c reads. -/
structure ethnl_reply_data where
  dev : net_device

/-- From fec.c: struct fec_reply_data. -/
structure fec_reply_data where
  base : ethnl_reply_data
  fec : ethtool_fecparam

/-- Socket buffer, reduced to the bytes written into it so far. -/
structure sk_buff where
  data : List Nat
  deriving DecidableEq, Repr

/-- Constants and tables that fec.c uses but that are declared in headers
outside of fec.c (errno.h, uapi ethtool_netlink.h, common.h); they are
parameters of every model below.  `EOPNOTSUPP` is the positive errno number. -/
structure Uapi where
  EOPNOTSUPP : Int
  ETHTOOL_A_FEC_HEADER : Nat
  ETHTOOL_A_FEC_MODES : Nat
  ETHTOOL_FEC_MODE_COUNT : Nat
  ETHTOOL_FLAG_COMPACT_BITSETS : Nat
  ETHTOOL_MSG_FEC_NTF : Nat
  fec_mode_names : List String

/-- One call made by a function of fec.c, with the arguments and results the
properties below talk about.  The `ret` of a call is the value it returned;
`mod` of `ethnl_update_bitset32` is the content of `*mod` after the call; `fec`
of `set_fecparam` is the struct handed to the driver; `ethtool_notify` is
always called with NULL data in fec.c, only its command is kept. -/
inductive Call where
  | nlmsg_parse (ret : Int)
  | ethnl_parse_header_dev_get (ret : Int)
  | rtnl_lock
  | ethnl_ops_begin (ret : Int)
  | get_fecparam (ret : Int)
  | ethnl_update_bitset32 (ret : Int) (mod : Bool)
  | set_fecparam (fec : ethtool_fecparam) (ret : Int)
  | ethtool_notify (cmd : Nat)
  | ethnl_ops_complete
  | rtnl_unlock
  | dev_put
  | ethnl_bitset32_size (val mask nbits : Nat) (names : List String) (compact : Bool)
  | ethnl_put_bitset32 (attrtype val mask nbits : Nat) (names : List String) (compact : Bool)
  deriving DecidableEq, Repr

/-- The callees of `ethnl_set_fec` other than the driver callbacks.
`α` is the type of a netlink attribute (struct nlattr).

* `nlmsg_parse`: return value and the filled attribute table `tb`;
* `ethnl_parse_header_dev_get`: from `tb[ETHTOOL_A_FEC_HEADER]`, the return
  value and `req_info.dev` (read by the handler only when the return value is
  not negative);
* `ethnl_ops_begin`: return value;
* `ethnl_update_bitset32 bitmap nbits attr names mod`: return value, the new
  content of `*bitmap` and the new content of `*mod`. -/
structure Externals (α : Type) where
  nlmsg_parse : Int × (Nat → Option α)
  ethnl_parse_header_dev_get : Option α → Int × net_device
  ethnl_ops_begin : net_device → Int
  ethnl_update_bitset32 : Nat → Nat → Option α → List String → Bool → Int × Nat × Bool

/-- The bitset codec entry points used by the GET callbacks (bitset.c).
`ethnl_put_bitset32 skb attrtype val mask nbits names compact` returns its
return value and the socket buffer after the call. -/
structure BitsetCodec where
  ethnl_bitset32_size : Nat → Nat → Nat → List String → Bool → Int
  ethnl_put_bitset32 : sk_buff → Nat → Nat → Nat → Nat → List String → Bool → Int × sk_buff

/-! ## FEC_GET -/

/-- From fec.c: fec_prepare_data.  Returns the return value, the reply data
after the call and the calls made. -/
def fec_prepare_data (K : Uapi) (ethnl_ops_begin : net_device → Int)
    (data : fec_reply_data) : Int × fec_reply_data × List Call :=
  let dev := data.base.dev
  match dev.ethtool_ops.get_fecparam with
  | none => (-K.EOPNOTSUPP, data, [])
  | some get_fecparam =>
    let ret := ethnl_ops_begin dev
    let t := [Call.ethnl_ops_begin ret]
    if ret < 0 then (ret, data, t) else
    let got := get_fecparam data.fec
    let ret := got.1
    let data := { data with fec := got.2 }
    let t := t ++ [Call.get_fecparam ret]
    let t := t ++ [Call.ethnl_ops_complete]
    (ret, data, t)

/-- From fec.c: fec_reply_size.  `compact` is the conversion of the u32
`req_base->flags & ETHTOOL_FLAG_COMPACT_BITSETS` to bool. -/
def fec_reply_size (K : Uapi) (C : BitsetCodec) (req_base : ethnl_req_info)
    (data : fec_reply_data) : Int × List Call :=
  let compact : Bool := decide (req_base.flags &&& K.ETHTOOL_FLAG_COMPACT_BITSETS ≠ 0)
  (C.ethnl_bitset32_size data.fec.active_fec data.fec.fec
      K.ETHTOOL_FEC_MODE_COUNT K.fec_mode_names compact,
   [Call.ethnl_bitset32_size data.fec.active_fec data.fec.fec
      K.ETHTOOL_FEC_MODE_COUNT K.fec_mode_names compact])

/-- From fec.c: fec_fill_reply.  Returns the return value, the socket buffer
after the call and the calls made. -/
def fec_fill_reply (K : Uapi) (C : BitsetCodec) (skb : sk_buff)
    (req_base : ethnl_req_info) (data : fec_reply_data) : Int × sk_buff × List Call :=
  let compact : Bool := decide (req_base.flags &&& K.ETHTOOL_FLAG_COMPACT_BITSETS ≠ 0)
  let put := C.ethnl_put_bitset32 skb K.ETHTOOL_A_FEC_MODES
      data.fec.active_fec data.fec.fec
      K.ETHTOOL_FEC_MODE_COUNT K.fec_mode_names compact
  (put.1, put.2,
   [Call.ethnl_put_bitset32 K.ETHTOOL_A_FEC_MODES data.fec.active_fec data.fec.fec
      K.ETHTOOL_FEC_MODE_COUNT K.fec_mode_names compact])

/-! ## FEC_SET -/

/-- Label `out_dev` of ethnl_set_fec. -/
def out_dev (ret : Int) (t : List Call) : Int × List Call :=
  (ret, t ++ [Call.dev_put])

/-- Label `out_rtnl` of ethnl_set_fec (falls through to `out_dev`). -/
def out_rtnl (ret : Int) (t : List Call) : Int × List Call :=
  out_dev ret (t ++ [Call.rtnl_unlock])

/-- Label `out_ops` of ethnl_set_fec (falls through to `out_rtnl`). -/
def out_ops (ret : Int) (t : List Call) : Int × List Call :=
  out_rtnl ret (t ++ [Call.ethnl_ops_complete])

/-- From fec.c: ethnl_set_fec.  Returns the return value and the calls made.
`ops` is `dev->ethtool_ops`; line 131 reads `dev->ethtool_ops->set_fecparam`
again, which is the pointer tested on line 114. -/
def ethnl_set_fec {α : Type} (K : Uapi) (X : Externals α) : Int × List Call :=
  let fec : ethtool_fecparam := ⟨0, 0, 0, 0⟩
  let mod : Bool := false
  let parsed := X.nlmsg_parse
  let tb := parsed.2
  let ret := parsed.1
  let t := [Call.nlmsg_parse ret]
  if ret < 0 then (ret, t) else
  let hdr := X.ethnl_parse_header_dev_get (tb K.ETHTOOL_A_FEC_HEADER)
  let ret := hdr.1
  let t := t ++ [Call.ethnl_parse_header_dev_get ret]
  if ret < 0 then (ret, t) else
  let dev := hdr.2
  let ops := dev.ethtool_ops
  let ret := -K.EOPNOTSUPP
  match ops.get_fecparam with
  | none => out_dev ret t
  | some get_fecparam =>
  match ops.set_fecparam with
  | none => out_dev ret t
  | some set_fecparam =>
    let t := t ++ [Call.rtnl_lock]
    let ret := X.ethnl_ops_begin dev
    let t := t ++ [Call.ethnl_ops_begin ret]
    if ret < 0 then out_rtnl ret t else
    let got := get_fecparam fec
    let ret := got.1
    let fec := got.2
    let t := t ++ [Call.get_fecparam ret]
    if ret < 0 then out_ops ret t else
    let upd := X.ethnl_update_bitset32 fec.fec K.ETHTOOL_FEC_MODE_COUNT
        (tb K.ETHTOOL_A_FEC_MODES) K.fec_mode_names mod
    let ret := upd.1
    let fec := { fec with fec := upd.2.1 }
    let mod := upd.2.2
    let t := t ++ [Call.ethnl_update_bitset32 ret mod]
    if ret < 0 ∨ mod = false then out_ops ret t else
    let ret := set_fecparam fec
    let t := t ++ [Call.set_fecparam fec ret]
    if ret < 0 then out_ops ret t else
    let t := t ++ [Call.ethtool_notify K.ETHTOOL_MSG_FEC_NTF]
    out_ops ret t

/-! ## Vocabulary for statements about the list of calls -/

/-- A call of the driver's `set_fecparam` (the driver write). -/
def Call.isSetFecparam : Call → Bool
  | .set_fecparam _ _ => true
  | _ => false

/-- A call of the driver's `get_fecparam` (the driver query). -/
def Call.isGetFecparam : Call → Bool
  | .get_fecparam _ => true
  | _ => false

/-- A call of `ethtool_notify`. -/
def Call.isNotify : Call → Bool
  | .ethtool_notify _ => true
  | _ => false

/-- The calls that touch the device configuration: the two driver callbacks,
the bitset update and the notification. -/
def Call.needsLocks : Call → Bool
  | .get_fecparam _ => true
  | .ethnl_update_bitset32 _ _ => true
  | .set_fecparam _ _ => true
  | .ethtool_notify _ => true
  | _ => false

/-- The three resources a FEC_SET request holds: the device reference taken by
`ethnl_parse_header_dev_get`, the RTNL lock, and the per-device busy token
taken by `ethnl_ops_begin`. -/
inductive Resource where
  | dev
  | rtnl
  | ops
  deriving DecidableEq, Repr

/-- Acquisition or release of a resource. -/
inductive ResOp where
  | acquire (r : Resource)
  | release (r : Resource)
  deriving DecidableEq, Repr

/-- What a call does to the resources.  `ethnl_parse_header_dev_get` and
`ethnl_ops_begin` acquire only when they do not fail. -/
def Call.resOp : Call → Option ResOp
  | .ethnl_parse_header_dev_get ret => if 0 ≤ ret then some (.acquire .dev) else none
  | .rtnl_lock => some (.acquire .rtnl)
  | .ethnl_ops_begin ret => if 0 ≤ ret then some (.acquire .ops) else none
  | .ethnl_ops_complete => some (.release .ops)
  | .rtnl_unlock => some (.release .rtnl)
  | .dev_put => some (.release .dev)
  | _ => none

/-- Every step of ethnl_set_fec before the driver write succeeds: parsing,
device resolution, both driver callbacks present, ethnl_ops_begin, get_fecparam
(called on the zeroed struct), and ethnl_update_bitset32 (called on the `fec`
field that get_fecparam filled), which moreover reports modified. -/
def commit_reached {α : Type} (K : Uapi) (X : Externals α) : Prop :=
  0 ≤ X.nlmsg_parse.1 ∧
  0 ≤ (X.ethnl_parse_header_dev_get (X.nlmsg_parse.2 K.ETHTOOL_A_FEC_HEADER)).1 ∧
  ∃ g s,
    (X.ethnl_parse_header_dev_get
      (X.nlmsg_parse.2 K.ETHTOOL_A_FEC_HEADER)).2.ethtool_ops.get_fecparam = some g ∧
    (X.ethnl_parse_header_dev_get
      (X.nlmsg_parse.2 K.ETHTOOL_A_FEC_HEADER)).2.ethtool_ops.set_fecparam = some s ∧
    0 ≤ X.ethnl_ops_begin
      (X.ethnl_parse_header_dev_get (X.nlmsg_parse.2 K.ETHTOOL_A_FEC_HEADER)).2 ∧
    0 ≤ (g ⟨0, 0, 0, 0⟩).1 ∧
    0 ≤ (X.ethnl_update_bitset32 (g ⟨0, 0, 0, 0⟩).2.fec K.ETHTOOL_FEC_MODE_COUNT
      (X.nlmsg_parse.2 K.ETHTOOL_A_FEC_MODES) K.fec_mode_names false).1 ∧
    (X.ethnl_update_bitset32 (g ⟨0, 0, 0, 0⟩).2.fec K.ETHTOOL_FEC_MODE_COUNT
      (X.nlmsg_parse.2 K.ETHTOOL_A_FEC_MODES) K.fec_mode_names false).2.2 = true

/-! ## The bitset update of the specification, and the example of its §8 -/

/-- Modelled from the spec: one entry of a verbose (list form) bitset delta of
§4.1, naming one position with its presence flag and its on/off flag (the
wire format lives in bitset.c, which is not among the sources). -/
structure BitEntry where
  name : String
  carried : Bool
  value : Bool
  deriving DecidableEq, Repr

/-- Modelled from the spec: decoding of a verbose delta (§4.1; bitset.c is not
among the sources): every name is resolved in the name table; an unknown name,
an index out of range, or a value bit without its presence bit is a format
error (`none`).  The result lists the carried positions with their bit. -/
def spec_decode (nbits : Nat) (names : List String) : List BitEntry → Option (List (Nat × Bool))
  | [] => some []
  | e :: es =>
    let i := names.indexOf e.name
    if names.length ≤ i ∨ nbits ≤ i then none
    else if e.value = true ∧ e.carried = false then none
    else
      match spec_decode nbits names es with
      | none => none
      | some rest => if e.carried then some ((i, e.value) :: rest) else some rest

/-- Modelled from the spec: bit `i` of `bitmap` set to `v` ("set value to the
bit of the delta", §4.1; bitset.c is not among the sources). -/
def set_bit (bitmap i : Nat) (v : Bool) : Nat :=
  if v then bitmap ||| 2 ^ i else bitmap ^^^ (bitmap &&& 2 ^ i)

/-- Modelled from the spec: ethnl_update_bitset32 (bitset.c is not among the
sources), for a verbose delta, after specification §4.1: decode the delta, then
set every carried position to the bit of the delta and leave the other
positions untouched; `modified` is true iff some bit changed; a delta that does
not decode fails with the format error and changes nothing.  Returns the return
value, the new bitmap and `modified`. -/
def spec_update_bitset32 (FormatError : Int) (bitmap nbits : Nat) (delta : List BitEntry)
    (names : List String) : Int × Nat × Bool :=
  match spec_decode nbits names delta with
  | none => (-FormatError, bitmap, false)
  | some sets =>
    let updated := sets.foldl (fun b p => set_bit b p.1 p.2) bitmap
    (0, updated, decide (updated ≠ bitmap))

/-- Netlink attributes of the example requests. -/
inductive ExAttr where
  | header
  | modes (delta : List BitEntry)
  deriving DecidableEq, Repr

/-- The enumeration of the example of specification §8: BASER, RS, LLRS at
positions 0, 1, 2.  The other constants are sample values (errno 95, header
and modes attributes 1 and 2, compact flag bit 0, notification command 31). -/
def exampleUapi : Uapi where
  EOPNOTSUPP := 95
  ETHTOOL_A_FEC_HEADER := 1
  ETHTOOL_A_FEC_MODES := 2
  ETHTOOL_FEC_MODE_COUNT := 3
  ETHTOOL_FLAG_COMPACT_BITSETS := 1
  ETHTOOL_MSG_FEC_NTF := 31
  fec_mode_names := ["BASER", "RS", "LLRS"]

/-- A device whose driver query succeeds and reports the given `active_fec` and
`fec`, and whose driver write is `set`. -/
def exampleDevice (active_fec fec : Nat) (set : ethtool_fecparam → Int) : net_device :=
  ⟨⟨some (fun p => (0, { p with active_fec := active_fec, fec := fec })), some set⟩⟩

/-- A request for device `dev` carrying the verbose delta `delta`: parsing,
device resolution and `ethnl_ops_begin` succeed, and the bitset update is the
one of the specification (an absent attribute is an empty update). -/
def exampleExternals (dev : net_device) (delta : List BitEntry) : Externals ExAttr where
  nlmsg_parse := (0, fun i =>
    if i = 1 then some ExAttr.header else if i = 2 then some (ExAttr.modes delta) else none)
  ethnl_parse_header_dev_get := fun _ => (0, dev)
  ethnl_ops_begin := fun _ => 0
  ethnl_update_bitset32 := fun bitmap nbits attr names mod =>
    match attr with
    | some (ExAttr.modes d) => spec_update_bitset32 22 bitmap nbits d names
    | _ => (0, bitmap, mod)

/-- A toy codec for examples: two bytes per position in verbose form, eight
bytes in compact form; the encoder appends exactly that many bytes. -/
def exampleCodec : BitsetCodec where
  ethnl_bitset32_size := fun _ _ nbits _ compact => if compact then 8 else 2 * nbits
  ethnl_put_bitset32 := fun skb _ val mask nbits _ compact =>
    (0, ⟨skb.data ++ (if compact then List.replicate 4 val ++ List.replicate 4 mask
                      else List.replicate (2 * nbits) val)⟩)

/-! ## Shapes of a run of ethnl_set_fec -/

/-- Every run of ethnl_set_fec takes one of eight paths; each path fixes the
return value and the list of calls up to the values returned by the callees. -/
theorem ethnl_set_fec_paths {α : Type} (K : Uapi) (X : Externals α) :
    (∃ r, r < 0 ∧ ethnl_set_fec K X = (r, [Call.nlmsg_parse r])) ∨
    (∃ r0 r, 0 ≤ r0 ∧ r < 0 ∧ ethnl_set_fec K X =
      (r, [Call.nlmsg_parse r0, Call.ethnl_parse_header_dev_get r])) ∨
    (∃ r0 r1, 0 ≤ r0 ∧ 0 ≤ r1 ∧ ethnl_set_fec K X =
      (-K.EOPNOTSUPP, [Call.nlmsg_parse r0, Call.ethnl_parse_header_dev_get r1, Call.dev_put])) ∨
    (∃ r0 r1 r, 0 ≤ r0 ∧ 0 ≤ r1 ∧ r < 0 ∧ ethnl_set_fec K X =
      (r, [Call.nlmsg_parse r0, Call.ethnl_parse_header_dev_get r1, Call.rtnl_lock,
           Call.ethnl_ops_begin r, Call.rtnl_unlock, Call.dev_put])) ∨
    (∃ r0 r1 r2 r, 0 ≤ r0 ∧ 0 ≤ r1 ∧ 0 ≤ r2 ∧ r < 0 ∧ ethnl_set_fec K X =
      (r, [Call.nlmsg_parse r0, Call.ethnl_parse_header_dev_get r1, Call.rtnl_lock,
           Call.ethnl_ops_begin r2, Call.get_fecparam r, Call.ethnl_ops_complete,
           Call.rtnl_unlock, Call.dev_put])) ∨
    (∃ r0 r1 r2 r3 r m, 0 ≤ r0 ∧ 0 ≤ r1 ∧ 0 ≤ r2 ∧ 0 ≤ r3 ∧ (r < 0 ∨ m = false) ∧
      ethnl_set_fec K X =
      (r, [Call.nlmsg_parse r0, Call.ethnl_parse_header_dev_get r1, Call.rtnl_lock,
           Call.ethnl_ops_begin r2, Call.get_fecparam r3, Call.ethnl_update_bitset32 r m,
           Call.ethnl_ops_complete, Call.rtnl_unlock, Call.dev_put])) ∨
    (∃ r0 r1 r2 r3 r4 fec r, 0 ≤ r0 ∧ 0 ≤ r1 ∧ 0 ≤ r2 ∧ 0 ≤ r3 ∧ 0 ≤ r4 ∧ r < 0 ∧
      ethnl_set_fec K X =
      (r, [Call.nlmsg_parse r0, Call.ethnl_parse_header_dev_get r1, Call.rtnl_lock,
           Call.ethnl_ops_begin r2, Call.get_fecparam r3, Call.ethnl_update_bitset32 r4 true,
           Call.set_fecparam fec r, Call.ethnl_ops_complete, Call.rtnl_unlock,
           Call.dev_put])) ∨
    (∃ r0 r1 r2 r3 r4 fec r, 0 ≤ r0 ∧ 0 ≤ r1 ∧ 0 ≤ r2 ∧ 0 ≤ r3 ∧ 0 ≤ r4 ∧ 0 ≤ r ∧
      ethnl_set_fec K X =
      (r, [Call.nlmsg_parse r0, Call.ethnl_parse_header_dev_get r1, Call.rtnl_lock,
           Call.ethnl_ops_begin r2, Call.get_fecparam r3, Call.ethnl_update_bitset32 r4 true,
           Call.set_fecparam fec r, Call.ethtool_notify K.ETHTOOL_MSG_FEC_NTF,
           Call.ethnl_ops_complete, Call.rtnl_unlock, Call.dev_put])) := by
  generalize hres : ethnl_set_fec K X = res
  unfold ethnl_set_fec at hres
  simp only [out_ops, out_rtnl, out_dev, List.append_assoc, List.cons_append,
    List.nil_append] at hres
  by_cases h0 : X.nlmsg_parse.1 < 0
  · rw [if_pos h0] at hres
    subst hres
    exact Or.inl ⟨_, h0, rfl⟩
  rw [if_neg h0] at hres
  have p0 := not_lt.mp h0
  by_cases h1 : (X.ethnl_parse_header_dev_get (X.nlmsg_parse.2 K.ETHTOOL_A_FEC_HEADER)).1 < 0
  · rw [if_pos h1] at hres
    subst hres
    exact Or.inr (Or.inl ⟨_, _, p0, h1, rfl⟩)
  rw [if_neg h1] at hres
  have p1 := not_lt.mp h1
  generalize (X.ethnl_parse_header_dev_get (X.nlmsg_parse.2 K.ETHTOOL_A_FEC_HEADER)).2 = dev
    at hres
  cases hg : dev.ethtool_ops.get_fecparam with
  | none =>
    simp only [hg] at hres
    subst hres
    exact Or.inr (Or.inr (Or.inl ⟨_, _, p0, p1, rfl⟩))
  | some g =>
    simp only [hg] at hres
    cases hs : dev.ethtool_ops.set_fecparam with
    | none =>
      simp only [hs] at hres
      subst hres
      exact Or.inr (Or.inr (Or.inl ⟨_, _, p0, p1, rfl⟩))
    | some s =>
      simp only [hs] at hres
      by_cases h2 : X.ethnl_ops_begin dev < 0
      · rw [if_pos h2] at hres
        subst hres
        exact Or.inr (Or.inr (Or.inr (Or.inl ⟨_, _, _, p0, p1, h2, rfl⟩)))
      rw [if_neg h2] at hres
      have p2 := not_lt.mp h2
      by_cases h3 : (g ⟨0, 0, 0, 0⟩).1 < 0
      · rw [if_pos h3] at hres
        subst hres
        exact Or.inr (Or.inr (Or.inr (Or.inr (Or.inl ⟨_, _, _, _, p0, p1, p2, h3, rfl⟩))))
      rw [if_neg h3] at hres
      have p3 := not_lt.mp h3
      generalize X.ethnl_update_bitset32 (g ⟨0, 0, 0, 0⟩).2.fec K.ETHTOOL_FEC_MODE_COUNT
        (X.nlmsg_parse.2 K.ETHTOOL_A_FEC_MODES) K.fec_mode_names false = upd at hres
      by_cases h4 : upd.1 < 0 ∨ upd.2.2 = false
      · rw [if_pos h4] at hres
        subst hres
        exact Or.inr (Or.inr (Or.inr (Or.inr (Or.inr (Or.inl
          ⟨_, _, _, _, _, _, p0, p1, p2, p3, h4, rfl⟩)))))
      rw [if_neg h4] at hres
      have p4 := not_or.mp h4
      have hm := Bool.eq_true_of_not_eq_false p4.2
      rw [hm] at hres
      generalize ethtool_fecparam.mk (g ⟨0, 0, 0, 0⟩).2.cmd (g ⟨0, 0, 0, 0⟩).2.active_fec
        upd.2.1 (g ⟨0, 0, 0, 0⟩).2.reserved = fec at hres
      by_cases h5 : s fec < 0
      · rw [if_pos h5] at hres
        subst hres
        exact Or.inr (Or.inr (Or.inr (Or.inr (Or.inr (Or.inr (Or.inl
          ⟨_, _, _, _, _, _, _, p0, p1, p2, p3, not_lt.mp p4.1, h5, rfl⟩))))))
      rw [if_neg h5] at hres
      subst hres
      exact Or.inr (Or.inr (Or.inr (Or.inr (Or.inr (Or.inr (Or.inr
        ⟨_, _, _, _, _, _, _, p0, p1, p2, p3, not_lt.mp p4.1, not_lt.mp h5, rfl⟩))))))

/-- Every run of fec_prepare_data takes one of three paths. -/
theorem fec_prepare_data_paths (K : Uapi) (ethnl_ops_begin : net_device → Int)
    (data : fec_reply_data) :
    (data.base.dev.ethtool_ops.get_fecparam = none ∧
      fec_prepare_data K ethnl_ops_begin data = (-K.EOPNOTSUPP, data, [])) ∨
    (∃ g, data.base.dev.ethtool_ops.get_fecparam = some g ∧
      ethnl_ops_begin data.base.dev < 0 ∧
      fec_prepare_data K ethnl_ops_begin data =
        (ethnl_ops_begin data.base.dev, data,
          [Call.ethnl_ops_begin (ethnl_ops_begin data.base.dev)])) ∨
    (∃ g, data.base.dev.ethtool_ops.get_fecparam = some g ∧
      0 ≤ ethnl_ops_begin data.base.dev ∧
      fec_prepare_data K ethnl_ops_begin data =
        ((g data.fec).1, { data with fec := (g data.fec).2 },
          [Call.ethnl_ops_begin (ethnl_ops_begin data.base.dev),
           Call.get_fecparam (g data.fec).1, Call.ethnl_ops_complete])) := by
  unfold fec_prepare_data
  cases hg : data.base.dev.ethtool_ops.get_fecparam with
  | none => exact Or.inl ⟨rfl, by simp [hg]⟩
  | some g =>
    by_cases hb : ethnl_ops_begin data.base.dev < 0
    · exact Or.inr (Or.inl ⟨g, rfl, hb, by simp [hg, hb]⟩)
    · exact Or.inr (Or.inr ⟨g, rfl, not_lt.mp hb, by simp [hg, hb]⟩)

/-! ## FEC_SET: no-op and effective updates -/

/-- C1: when ethnl_update_bitset32 is reached (so parsing, device resolution,
the capability check, ethnl_ops_begin and get_fecparam all succeeded) and
returns a non-negative code with modified == false, then set_fecparam is not
called, ethtool_notify is not called, and the handler returns that non-negative
code. -/
theorem set_fec_noop_no_write_no_notify {α : Type} (K : Uapi) (X : Externals α) (r : Int)
    (hr : 0 ≤ r) (hupd : Call.ethnl_update_bitset32 r false ∈ (ethnl_set_fec K X).2) :
    (∀ fec ret, Call.set_fecparam fec ret ∉ (ethnl_set_fec K X).2) ∧
    (∀ cmd, Call.ethtool_notify cmd ∉ (ethnl_set_fec K X).2) ∧
    (ethnl_set_fec K X).1 = r ∧ 0 ≤ (ethnl_set_fec K X).1 := by
  rcases ethnl_set_fec_paths K X with
    ⟨a, ha, h⟩ | ⟨a, b, ha, hb, h⟩ | ⟨a, b, ha, hb, h⟩ | ⟨a, b, c, ha, hb, hc, h⟩ |
    ⟨a, b, c, d, ha, hb, hc, hd, h⟩ | ⟨a, b, c, d, e, m, ha, hb, hc, hd, he, h⟩ |
    ⟨a, b, c, d, e, f, g, ha, hb, hc, hd, he, hg, h⟩ |
    ⟨a, b, c, d, e, f, g, ha, hb, hc, hd, he, hg, h⟩
  all_goals rw [h] at hupd ⊢
  all_goals simp at hupd ⊢
  exact ⟨hupd.1.symm, hupd.1 ▸ hr⟩

/-- Witness for C1: a request that sets RS on a device whose `fec` field already
has RS. -/
theorem set_fec_noop_no_write_no_notify_witness :
    (∀ fec ret, Call.set_fecparam fec ret ∉ (ethnl_set_fec exampleUapi
      (exampleExternals (exampleDevice 2 7 (fun _ => 0)) [⟨"RS", true, true⟩])).2) ∧
    (∀ cmd, Call.ethtool_notify cmd ∉ (ethnl_set_fec exampleUapi
      (exampleExternals (exampleDevice 2 7 (fun _ => 0)) [⟨"RS", true, true⟩])).2) ∧
    (ethnl_set_fec exampleUapi
      (exampleExternals (exampleDevice 2 7 (fun _ => 0)) [⟨"RS", true, true⟩])).1 = 0 ∧
    0 ≤ (ethnl_set_fec exampleUapi
      (exampleExternals (exampleDevice 2 7 (fun _ => 0)) [⟨"RS", true, true⟩])).1 :=
  set_fec_noop_no_write_no_notify exampleUapi
    (exampleExternals (exampleDevice 2 7 (fun _ => 0)) [⟨"RS", true, true⟩]) 0
    (by decide) (by decide)

/-- C2 as stated fails: the update succeeds with modified == true, the driver
write is issued once and fails with -5, and no notification is sent. -/
theorem set_fec_modified_write_fails_no_notify :
    (0 ≤ (0 : Int) ∧ Call.ethnl_update_bitset32 0 true ∈ (ethnl_set_fec exampleUapi
      (exampleExternals (exampleDevice 2 2 (fun _ => -5)) [⟨"LLRS", true, true⟩])).2) ∧
    (ethnl_set_fec exampleUapi
      (exampleExternals (exampleDevice 2 2 (fun _ => -5)) [⟨"LLRS", true, true⟩])).2.countP
        Call.isSetFecparam = 1 ∧
    ¬ (ethnl_set_fec exampleUapi
      (exampleExternals (exampleDevice 2 2 (fun _ => -5)) [⟨"LLRS", true, true⟩])).2.countP
        Call.isNotify = 1 := by
  decide

/-- C2, amended: when ethnl_update_bitset32 returns a non-negative code with
modified == true, set_fecparam is called exactly once and the handler returns
what it returned; if that is negative no notification is sent; if it is not
negative, ethtool_notify is called exactly once, with ETHTOOL_MSG_FEC_NTF, and
after the write. -/
theorem set_fec_modified_write_then_notify {α : Type} (K : Uapi) (X : Externals α) (r : Int)
    (hr : 0 ≤ r) (hupd : Call.ethnl_update_bitset32 r true ∈ (ethnl_set_fec K X).2) :
    ∃ fec s, Call.set_fecparam fec s ∈ (ethnl_set_fec K X).2 ∧
      (ethnl_set_fec K X).2.countP Call.isSetFecparam = 1 ∧
      (ethnl_set_fec K X).1 = s ∧
      (s < 0 → (ethnl_set_fec K X).2.countP Call.isNotify = 0) ∧
      (0 ≤ s → (ethnl_set_fec K X).2.countP Call.isNotify = 1 ∧
        ∃ pre mid post, (ethnl_set_fec K X).2 =
          pre ++ Call.set_fecparam fec s :: (mid ++
            Call.ethtool_notify K.ETHTOOL_MSG_FEC_NTF :: post)) := by
  rcases ethnl_set_fec_paths K X with
    ⟨a, ha, h⟩ | ⟨a, b, ha, hb, h⟩ | ⟨a, b, ha, hb, h⟩ | ⟨a, b, c, ha, hb, hc, h⟩ |
    ⟨a, b, c, d, ha, hb, hc, hd, h⟩ | ⟨a, b, c, d, e, m, ha, hb, hc, hd, he, h⟩ |
    ⟨a, b, c, d, e, f, g, ha, hb, hc, hd, he, hg, h⟩ |
    ⟨a, b, c, d, e, f, g, ha, hb, hc, hd, he, hg, h⟩
  all_goals rw [h] at hupd ⊢
  all_goals simp at hupd
  · rcases he with he | he
    · omega
    · simp [he] at hupd
  · refine ⟨f, g, by simp, by simp [List.countP_cons, Call.isSetFecparam], rfl, ?_, ?_⟩
    · intro _
      simp [List.countP_cons, Call.isNotify]
    · intro h0
      omega
  · refine ⟨f, g, by simp, by simp [List.countP_cons, Call.isSetFecparam], rfl, ?_, ?_⟩
    · intro h0
      omega
    · intro _
      refine ⟨by simp [List.countP_cons, Call.isNotify], ?_⟩
      exact ⟨[Call.nlmsg_parse a, Call.ethnl_parse_header_dev_get b, Call.rtnl_lock,
        Call.ethnl_ops_begin c, Call.get_fecparam d, Call.ethnl_update_bitset32 e true], [],
        [Call.ethnl_ops_complete, Call.rtnl_unlock, Call.dev_put], rfl⟩

/-- Witness for C2 (amended): a request that adds LLRS to a `fec` field holding
only RS, on a device whose driver write succeeds. -/
theorem set_fec_modified_write_then_notify_witness :
    ∃ fec s, Call.set_fecparam fec s ∈ (ethnl_set_fec exampleUapi
        (exampleExternals (exampleDevice 2 2 (fun _ => 0)) [⟨"LLRS", true, true⟩])).2 ∧
      (ethnl_set_fec exampleUapi
        (exampleExternals (exampleDevice 2 2 (fun _ => 0)) [⟨"LLRS", true, true⟩])).2.countP
          Call.isSetFecparam = 1 ∧
      (ethnl_set_fec exampleUapi
        (exampleExternals (exampleDevice 2 2 (fun _ => 0)) [⟨"LLRS", true, true⟩])).1 = s ∧
      (s < 0 → (ethnl_set_fec exampleUapi
        (exampleExternals (exampleDevice 2 2 (fun _ => 0)) [⟨"LLRS", true, true⟩])).2.countP
          Call.isNotify = 0) ∧
      (0 ≤ s → (ethnl_set_fec exampleUapi
        (exampleExternals (exampleDevice 2 2 (fun _ => 0)) [⟨"LLRS", true, true⟩])).2.countP
          Call.isNotify = 1 ∧
        ∃ pre mid post, (ethnl_set_fec exampleUapi
          (exampleExternals (exampleDevice 2 2 (fun _ => 0)) [⟨"LLRS", true, true⟩])).2 =
          pre ++ Call.set_fecparam fec s :: (mid ++
            Call.ethtool_notify exampleUapi.ETHTOOL_MSG_FEC_NTF :: post)) :=
  set_fec_modified_write_then_notify exampleUapi
    (exampleExternals (exampleDevice 2 2 (fun _ => 0)) [⟨"LLRS", true, true⟩]) 0
    (by decide) (by decide)

/-! ## FEC_SET: missing driver callbacks -/

/-- C3: when parsing and device resolution succeed and the driver lacks
get_fecparam or lacks set_fecparam, ethnl_set_fec returns -EOPNOTSUPP and the
only call after device resolution is dev_put: no rtnl_lock, no
ethnl_ops_begin, no driver callback, no bitset update, no notification. -/
theorem set_fec_unsupported_only_dev_put {α : Type} (K : Uapi) (X : Externals α)
    (hparse : 0 ≤ X.nlmsg_parse.1)
    (hhdr : 0 ≤ (X.ethnl_parse_header_dev_get (X.nlmsg_parse.2 K.ETHTOOL_A_FEC_HEADER)).1)
    (hops : (X.ethnl_parse_header_dev_get
          (X.nlmsg_parse.2 K.ETHTOOL_A_FEC_HEADER)).2.ethtool_ops.get_fecparam = none ∨
        (X.ethnl_parse_header_dev_get
          (X.nlmsg_parse.2 K.ETHTOOL_A_FEC_HEADER)).2.ethtool_ops.set_fecparam = none) :
    ethnl_set_fec K X = (-K.EOPNOTSUPP,
      [Call.nlmsg_parse X.nlmsg_parse.1,
       Call.ethnl_parse_header_dev_get
         (X.ethnl_parse_header_dev_get (X.nlmsg_parse.2 K.ETHTOOL_A_FEC_HEADER)).1,
       Call.dev_put]) ∧
    ∀ c ∈ (ethnl_set_fec K X).2,
      c ≠ Call.rtnl_lock ∧ (∀ r, c ≠ Call.ethnl_ops_begin r) ∧ c.needsLocks = false := by
  have key : ethnl_set_fec K X = (-K.EOPNOTSUPP,
      [Call.nlmsg_parse X.nlmsg_parse.1,
       Call.ethnl_parse_header_dev_get
         (X.ethnl_parse_header_dev_get (X.nlmsg_parse.2 K.ETHTOOL_A_FEC_HEADER)).1,
       Call.dev_put]) := by
    unfold ethnl_set_fec
    simp only [out_dev, List.cons_append, List.nil_append]
    rw [if_neg (not_lt.mpr hparse), if_neg (not_lt.mpr hhdr)]
    rcases hops with hg | hs
    · simp only [hg]
    · simp only [hs]
      cases (X.ethnl_parse_header_dev_get
        (X.nlmsg_parse.2 K.ETHTOOL_A_FEC_HEADER)).2.ethtool_ops.get_fecparam <;> rfl
  refine ⟨key, ?_⟩
  rw [key]
  intro c hc
  simp only [List.mem_cons, List.mem_singleton, List.not_mem_nil, or_false] at hc
  rcases hc with rfl | rfl | rfl <;> simp [Call.needsLocks]

/-- Witness for C3: a driver with the query callback but without the update
callback. -/
theorem set_fec_unsupported_only_dev_put_witness :
    ethnl_set_fec exampleUapi
        (exampleExternals ⟨⟨some (fun p => (0, p)), none⟩⟩ [⟨"RS", true, true⟩]) =
      (-95, [Call.nlmsg_parse 0, Call.ethnl_parse_header_dev_get 0, Call.dev_put]) :=
  (set_fec_unsupported_only_dev_put exampleUapi
    (exampleExternals ⟨⟨some (fun p => (0, p)), none⟩⟩ [⟨"RS", true, true⟩])
    (by decide) (by decide) (Or.inr rfl)).1

/-! ## FEC_SET: resources -/

/-- C4: in every run of ethnl_set_fec the acquisitions and releases of the
three resources (device reference, RTNL lock, busy token) form a properly
nested sequence: some initial part of [dev, rtnl, ops] is acquired in that
order and then exactly those resources are released, once each, in the reverse
order, before the handler returns.  In particular ethnl_ops_complete is called
iff ethnl_ops_begin succeeded, rtnl_unlock iff rtnl_lock was called, and
dev_put iff device resolution succeeded. -/
theorem set_fec_releases_in_reverse_order {α : Type} (K : Uapi) (X : Externals α) :
    (∃ acqs, acqs ∈ [[], [Resource.dev], [Resource.dev, Resource.rtnl],
          [Resource.dev, Resource.rtnl, Resource.ops]] ∧
        (ethnl_set_fec K X).2.filterMap Call.resOp =
          acqs.map ResOp.acquire ++ acqs.reverse.map ResOp.release) ∧
    (Call.ethnl_ops_complete ∈ (ethnl_set_fec K X).2 ↔
      ∃ r, 0 ≤ r ∧ Call.ethnl_ops_begin r ∈ (ethnl_set_fec K X).2) ∧
    (Call.rtnl_unlock ∈ (ethnl_set_fec K X).2 ↔ Call.rtnl_lock ∈ (ethnl_set_fec K X).2) ∧
    (Call.dev_put ∈ (ethnl_set_fec K X).2 ↔
      ∃ r, 0 ≤ r ∧ Call.ethnl_parse_header_dev_get r ∈ (ethnl_set_fec K X).2) := by
  rcases ethnl_set_fec_paths K X with
    ⟨a, ha, h⟩ | ⟨a, b, ha, hb, h⟩ | ⟨a, b, ha, hb, h⟩ | ⟨a, b, c, ha, hb, hc, h⟩ |
    ⟨a, b, c, d, ha, hb, hc, hd, h⟩ | ⟨a, b, c, d, e, m, ha, hb, hc, hd, he, h⟩ |
    ⟨a, b, c, d, e, f, g, ha, hb, hc, hd, he, hg, h⟩ |
    ⟨a, b, c, d, e, f, g, ha, hb, hc, hd, he, hg, h⟩
  all_goals rw [h]
  · exact ⟨⟨[], by simp, by simp [List.filterMap_cons, Call.resOp]⟩, by simp, by simp,
      by simp⟩
  · exact ⟨⟨[], by simp, by simp [List.filterMap_cons, Call.resOp, not_le.mpr hb]⟩,
      by simp, by simp, by simp; omega⟩
  · exact ⟨⟨[Resource.dev], by simp, by simp [List.filterMap_cons, Call.resOp, hb]⟩,
      by simp, by simp, by simp [hb]⟩
  · exact ⟨⟨[Resource.dev, Resource.rtnl], by simp,
      by simp [List.filterMap_cons, Call.resOp, hb, not_le.mpr hc]⟩,
      by simp; omega, by simp, by simp [hb]⟩
  all_goals
    exact ⟨⟨[Resource.dev, Resource.rtnl, Resource.ops], by simp,
      by simp [List.filterMap_cons, Call.resOp, hb, hc]⟩,
      by simp [hc], by simp, by simp [hb]⟩

/-! ## Driver errors -/

/-- C5: a negative code returned by a driver callback is the return value of
the function that called it, and the callback is called exactly once: for
get_fecparam in ethnl_set_fec and in fec_prepare_data, and for set_fecparam in
ethnl_set_fec. -/
theorem driver_error_returned_unchanged {α : Type} (K : Uapi) (X : Externals α)
    (ethnl_ops_begin : net_device → Int) (data : fec_reply_data) (e : Int) (he : e < 0) :
    (Call.get_fecparam e ∈ (ethnl_set_fec K X).2 →
      (ethnl_set_fec K X).1 = e ∧ (ethnl_set_fec K X).2.countP Call.isGetFecparam = 1) ∧
    (∀ fec, Call.set_fecparam fec e ∈ (ethnl_set_fec K X).2 →
      (ethnl_set_fec K X).1 = e ∧ (ethnl_set_fec K X).2.countP Call.isSetFecparam = 1) ∧
    (Call.get_fecparam e ∈ (fec_prepare_data K ethnl_ops_begin data).2.2 →
      (fec_prepare_data K ethnl_ops_begin data).1 = e ∧
      (fec_prepare_data K ethnl_ops_begin data).2.2.countP Call.isGetFecparam = 1) := by
  refine ⟨?_, ?_, ?_⟩
  · rcases ethnl_set_fec_paths K X with
      ⟨a, ha, h⟩ | ⟨a, b, ha, hb, h⟩ | ⟨a, b, ha, hb, h⟩ | ⟨a, b, c, ha, hb, hc, h⟩ |
      ⟨a, b, c, d, ha, hb, hc, hd, h⟩ | ⟨a, b, c, d, e, m, ha, hb, hc, hd, he, h⟩ |
      ⟨a, b, c, d, e, f, g, ha, hb, hc, hd, he, hg, h⟩ |
      ⟨a, b, c, d, e, f, g, ha, hb, hc, hd, he, hg, h⟩
    all_goals rw [h]
    all_goals simp [List.countP_cons, Call.isGetFecparam]
    all_goals omega
  · rcases ethnl_set_fec_paths K X with
      ⟨a, ha, h⟩ | ⟨a, b, ha, hb, h⟩ | ⟨a, b, ha, hb, h⟩ | ⟨a, b, c, ha, hb, hc, h⟩ |
      ⟨a, b, c, d, ha, hb, hc, hd, h⟩ | ⟨a, b, c, d, e, m, ha, hb, hc, hd, he, h⟩ |
      ⟨a, b, c, d, e, f, g, ha, hb, hc, hd, he, hg, h⟩ |
      ⟨a, b, c, d, e, f, g, ha, hb, hc, hd, he, hg, h⟩
    all_goals rw [h]
    all_goals simp [List.countP_cons, Call.isSetFecparam]
    all_goals omega
  · rcases fec_prepare_data_paths K ethnl_ops_begin data with
      ⟨_, h⟩ | ⟨g, _, _, h⟩ | ⟨g, _, _, h⟩
    all_goals rw [h]
    all_goals simp [List.countP_cons, Call.isGetFecparam]
    intro h1
    exact h1.symm

/-- Witness for C5: a driver whose query fails with -5, and a driver whose
write fails with -5. -/
theorem driver_error_returned_unchanged_witness :
    ((ethnl_set_fec exampleUapi (exampleExternals
        ⟨⟨some (fun p => (-5, p)), some (fun _ => 0)⟩⟩ [⟨"RS", true, true⟩])).1 = -5 ∧
      (ethnl_set_fec exampleUapi (exampleExternals
        ⟨⟨some (fun p => (-5, p)), some (fun _ => 0)⟩⟩ [⟨"RS", true, true⟩])).2.countP
          Call.isGetFecparam = 1) ∧
    ((ethnl_set_fec exampleUapi (exampleExternals
        (exampleDevice 2 2 (fun _ => -5)) [⟨"LLRS", true, true⟩])).1 = -5 ∧
      (ethnl_set_fec exampleUapi (exampleExternals
        (exampleDevice 2 2 (fun _ => -5)) [⟨"LLRS", true, true⟩])).2.countP
          Call.isSetFecparam = 1) ∧
    ((fec_prepare_data exampleUapi (fun _ => 0)
        ⟨⟨⟨⟨some (fun p => (-5, p)), none⟩⟩⟩, ⟨0, 0, 0, 0⟩⟩).1 = -5 ∧
      (fec_prepare_data exampleUapi (fun _ => 0)
        ⟨⟨⟨⟨some (fun p => (-5, p)), none⟩⟩⟩, ⟨0, 0, 0, 0⟩⟩).2.2.countP
          Call.isGetFecparam = 1) :=
  ⟨(driver_error_returned_unchanged exampleUapi (exampleExternals
      ⟨⟨some (fun p => (-5, p)), some (fun _ => 0)⟩⟩ [⟨"RS", true, true⟩]) (fun _ => 0)
      ⟨⟨⟨⟨some (fun p => (-5, p)), none⟩⟩⟩, ⟨0, 0, 0, 0⟩⟩ (-5) (by decide)).1 (by decide),
   (driver_error_returned_unchanged exampleUapi (exampleExternals
      (exampleDevice 2 2 (fun _ => -5)) [⟨"LLRS", true, true⟩]) (fun _ => 0)
      ⟨⟨⟨⟨some (fun p => (-5, p)), none⟩⟩⟩, ⟨0, 0, 0, 0⟩⟩ (-5) (by decide)).2.1
      ⟨0, 2, 6, 0⟩ (by decide),
   (driver_error_returned_unchanged exampleUapi (exampleExternals
      ⟨⟨some (fun p => (-5, p)), some (fun _ => 0)⟩⟩ [⟨"RS", true, true⟩]) (fun _ => 0)
      ⟨⟨⟨⟨some (fun p => (-5, p)), none⟩⟩⟩, ⟨0, 0, 0, 0⟩⟩ (-5) (by decide)).2.2 (by decide)⟩

/-! ## FEC_SET: when the driver is written and subscribers are notified -/

/-- C6: in ethnl_set_fec a notification is sent iff set_fecparam was called
and returned a non-negative code; set_fecparam is called iff every earlier step
succeeded and the bitset update reported modified.  Hence when get_fecparam
fails, or ethnl_update_bitset32 fails, there is no driver write and no
notification and the handler returns that error; and when set_fecparam fails
there is no notification. -/
theorem set_fec_notify_iff_write_succeeded {α : Type} (K : Uapi) (X : Externals α) :
    ((∃ cmd, Call.ethtool_notify cmd ∈ (ethnl_set_fec K X).2) ↔
      ∃ fec r, 0 ≤ r ∧ Call.set_fecparam fec r ∈ (ethnl_set_fec K X).2) ∧
    ((∃ fec r, Call.set_fecparam fec r ∈ (ethnl_set_fec K X).2) ↔ commit_reached K X) ∧
    (∀ e, e < 0 → Call.get_fecparam e ∈ (ethnl_set_fec K X).2 →
      (ethnl_set_fec K X).1 = e ∧
      ∀ c ∈ (ethnl_set_fec K X).2, c.isSetFecparam = false ∧ c.isNotify = false) ∧
    (∀ e m, e < 0 → Call.ethnl_update_bitset32 e m ∈ (ethnl_set_fec K X).2 →
      (ethnl_set_fec K X).1 = e ∧
      ∀ c ∈ (ethnl_set_fec K X).2, c.isSetFecparam = false ∧ c.isNotify = false) ∧
    (∀ fec e, e < 0 → Call.set_fecparam fec e ∈ (ethnl_set_fec K X).2 →
      ∀ c ∈ (ethnl_set_fec K X).2, c.isNotify = false) := by
  refine ⟨?_, ?_, ?_⟩
  · rcases ethnl_set_fec_paths K X with
      ⟨a, ha, h⟩ | ⟨a, b, ha, hb, h⟩ | ⟨a, b, ha, hb, h⟩ | ⟨a, b, c, ha, hb, hc, h⟩ |
      ⟨a, b, c, d, ha, hb, hc, hd, h⟩ | ⟨a, b, c, d, e, m, ha, hb, hc, hd, he, h⟩ |
      ⟨a, b, c, d, e, f, g, ha, hb, hc, hd, he, hg, h⟩ |
      ⟨a, b, c, d, e, f, g, ha, hb, hc, hd, he, hg, h⟩
    all_goals rw [h]
    all_goals simp
    all_goals exact hg
  · unfold commit_reached ethnl_set_fec
    simp only [out_ops, out_rtnl, out_dev, List.append_assoc, List.cons_append,
      List.nil_append]
    by_cases h0 : X.nlmsg_parse.1 < 0
    · simp [h0, not_le.mpr h0]
    rw [if_neg h0]
    by_cases h1 : (X.ethnl_parse_header_dev_get (X.nlmsg_parse.2 K.ETHTOOL_A_FEC_HEADER)).1 < 0
    · simp [h1, not_le.mpr h1]
    rw [if_neg h1]
    generalize (X.ethnl_parse_header_dev_get (X.nlmsg_parse.2 K.ETHTOOL_A_FEC_HEADER)).2 = dev
    cases hg : dev.ethtool_ops.get_fecparam with
    | none => simp
    | some g =>
      cases hs : dev.ethtool_ops.set_fecparam with
      | none => simp
      | some s =>
        simp only [Option.some.injEq, exists_and_left, exists_eq_left']
        by_cases h2 : X.ethnl_ops_begin dev < 0
        · simp [h2, not_le.mpr h2]
        rw [if_neg h2]
        by_cases h3 : (g ⟨0, 0, 0, 0⟩).1 < 0
        · simp [h3, not_le.mpr h3]
        rw [if_neg h3]
        generalize X.ethnl_update_bitset32 (g ⟨0, 0, 0, 0⟩).2.fec K.ETHTOOL_FEC_MODE_COUNT
          (X.nlmsg_parse.2 K.ETHTOOL_A_FEC_MODES) K.fec_mode_names false = upd
        by_cases h4 : upd.1 < 0 ∨ upd.2.2 = false
        · rw [if_pos h4]
          simp
          intro _ _ _ _ h5
          rcases h4 with h4 | h4
          · omega
          · simp [h4]
        rw [if_neg h4]
        have p4 := not_or.mp h4
        have hm := Bool.eq_true_of_not_eq_false p4.2
        by_cases h5 : s ⟨(g ⟨0, 0, 0, 0⟩).2.cmd, (g ⟨0, 0, 0, 0⟩).2.active_fec, upd.2.1,
            (g ⟨0, 0, 0, 0⟩).2.reserved⟩ < 0
        · rw [if_pos h5]
          simp [hm]
          omega
        · rw [if_neg h5]
          simp [hm]
          omega
  · rcases ethnl_set_fec_paths K X with
      ⟨a, ha, h⟩ | ⟨a, b, ha, hb, h⟩ | ⟨a, b, ha, hb, h⟩ | ⟨a, b, c, ha, hb, hc, h⟩ |
      ⟨a, b, c, d, ha, hb, hc, hd, h⟩ | ⟨a, b, c, d, e, m, ha, hb, hc, hd, he, h⟩ |
      ⟨a, b, c, d, e, f, g, ha, hb, hc, hd, he, hg, h⟩ |
      ⟨a, b, c, d, e, f, g, ha, hb, hc, hd, he, hg, h⟩
    all_goals rw [h]
    all_goals simp [Call.isSetFecparam, Call.isNotify]
    · intro x _ hx
      exact hx.symm
    · exact ⟨fun x hx hxd => by omega,
        fun x => ⟨fun _ hxe _ => hxe.symm, fun _ hxe _ => hxe.symm⟩⟩
    · exact ⟨fun x hx hxd => by omega, fun x hx hxe => by omega⟩
    · exact ⟨fun x hx hxd => by omega, fun x hx hxe => by omega,
        fun _ x hx _ hxg => by omega⟩

/-! ## Positions in a list of calls -/

/-- No call sits in the empty list. -/
theorem forall_split_nil (P : List Call → Call → List Call → Prop) :
    (∀ pre e post, ([] : List Call) = pre ++ e :: post → P pre e post) ↔ True := by
  simp

/-- A call sits in `x :: xs` either at the head or inside `xs`. -/
theorem forall_split_cons (P : List Call → Call → List Call → Prop) (x : Call)
    (xs : List Call) :
    (∀ pre e post, x :: xs = pre ++ e :: post → P pre e post) ↔
      (P [] x xs ∧ ∀ pre e post, xs = pre ++ e :: post → P (x :: pre) e post) := by
  constructor
  · intro h
    exact ⟨h [] x xs rfl, fun pre e post hxs => h (x :: pre) e post (by rw [hxs]; rfl)⟩
  · rintro ⟨h0, h1⟩ pre e post heq
    cases pre with
    | nil =>
      simp only [List.nil_append, List.cons.injEq] at heq
      obtain ⟨rfl, rfl⟩ := heq
      exact h0
    | cons y ys =>
      simp only [List.cons_append, List.cons.injEq] at heq
      obtain ⟨rfl, rfl⟩ := heq
      exact h1 ys e post rfl

/-! ## Locked region -/

/-- C10: in every run of ethnl_set_fec, each driver call, bitset update and
notification comes after rtnl_lock and after a successful ethnl_ops_begin, with
neither released yet, and is followed by ethnl_ops_complete and rtnl_unlock;
ethnl_ops_begin is called only with the RTNL lock taken and still held, and
ethnl_ops_complete comes before rtnl_unlock.  In fec_prepare_data the driver
query comes after a successful ethnl_ops_begin, before any ethnl_ops_complete,
and is followed by ethnl_ops_complete. -/
theorem driver_calls_inside_locked_region {α : Type} (K : Uapi) (X : Externals α)
    (ethnl_ops_begin : net_device → Int) (data : fec_reply_data) :
    (∀ pre e post, (ethnl_set_fec K X).2 = pre ++ e :: post → e.needsLocks = true →
      Call.rtnl_lock ∈ pre ∧ (∃ r, 0 ≤ r ∧ Call.ethnl_ops_begin r ∈ pre) ∧
      Call.ethnl_ops_complete ∉ pre ∧ Call.rtnl_unlock ∉ pre ∧
      Call.ethnl_ops_complete ∈ post ∧ Call.rtnl_unlock ∈ post) ∧
    (∀ pre e post, (ethnl_set_fec K X).2 = pre ++ e :: post →
      (∃ r, e = Call.ethnl_ops_begin r) →
      Call.rtnl_lock ∈ pre ∧ Call.rtnl_unlock ∉ pre) ∧
    (∀ pre e post, (ethnl_set_fec K X).2 = pre ++ e :: post →
      e = Call.ethnl_ops_complete →
      Call.rtnl_unlock ∉ pre ∧ Call.rtnl_unlock ∈ post) ∧
    (∀ pre e post, (fec_prepare_data K ethnl_ops_begin data).2.2 = pre ++ e :: post →
      e.needsLocks = true →
      (∃ r, 0 ≤ r ∧ Call.ethnl_ops_begin r ∈ pre) ∧
      Call.ethnl_ops_complete ∉ pre ∧ Call.ethnl_ops_complete ∈ post) := by
  refine ⟨?_, ?_, ?_, ?_⟩
  · rcases ethnl_set_fec_paths K X with
      ⟨a, ha, h⟩ | ⟨a, b, ha, hb, h⟩ | ⟨a, b, ha, hb, h⟩ | ⟨a, b, c, ha, hb, hc, h⟩ |
      ⟨a, b, c, d, ha, hb, hc, hd, h⟩ | ⟨a, b, c, d, e, m, ha, hb, hc, hd, he, h⟩ |
      ⟨a, b, c, d, e, f, g, ha, hb, hc, hd, he, hg, h⟩ |
      ⟨a, b, c, d, e, f, g, ha, hb, hc, hd, he, hg, h⟩
    all_goals rw [h]
    all_goals simp only [forall_split_cons, forall_split_nil]
    all_goals simp [Call.needsLocks]
    all_goals assumption
  · rcases ethnl_set_fec_paths K X with
      ⟨a, ha, h⟩ | ⟨a, b, ha, hb, h⟩ | ⟨a, b, ha, hb, h⟩ | ⟨a, b, c, ha, hb, hc, h⟩ |
      ⟨a, b, c, d, ha, hb, hc, hd, h⟩ | ⟨a, b, c, d, e, m, ha, hb, hc, hd, he, h⟩ |
      ⟨a, b, c, d, e, f, g, ha, hb, hc, hd, he, hg, h⟩ |
      ⟨a, b, c, d, e, f, g, ha, hb, hc, hd, he, hg, h⟩
    all_goals rw [h]
    all_goals simp only [forall_split_cons, forall_split_nil]
    all_goals simp
  · rcases ethnl_set_fec_paths K X with
      ⟨a, ha, h⟩ | ⟨a, b, ha, hb, h⟩ | ⟨a, b, ha, hb, h⟩ | ⟨a, b, c, ha, hb, hc, h⟩ |
      ⟨a, b, c, d, ha, hb, hc, hd, h⟩ | ⟨a, b, c, d, e, m, ha, hb, hc, hd, he, h⟩ |
      ⟨a, b, c, d, e, f, g, ha, hb, hc, hd, he, hg, h⟩ |
      ⟨a, b, c, d, e, f, g, ha, hb, hc, hd, he, hg, h⟩
    all_goals rw [h]
    all_goals simp only [forall_split_cons, forall_split_nil]
    all_goals simp
  · rcases fec_prepare_data_paths K ethnl_ops_begin data with
      ⟨_, h⟩ | ⟨g, _, _, h⟩ | ⟨g, _, hb, h⟩
    all_goals rw [h]
    all_goals simp only [forall_split_cons, forall_split_nil]
    all_goals simp [Call.needsLocks]
    exact hb

/-- Witness for C10: the driver write of a successful update sits between the
two acquisitions and the two releases. -/
theorem driver_calls_inside_locked_region_witness :
    Call.rtnl_lock ∈ [Call.nlmsg_parse 0, Call.ethnl_parse_header_dev_get 0, Call.rtnl_lock,
        Call.ethnl_ops_begin 0, Call.get_fecparam 0, Call.ethnl_update_bitset32 0 true] ∧
    (∃ r, 0 ≤ r ∧ Call.ethnl_ops_begin r ∈ [Call.nlmsg_parse 0,
        Call.ethnl_parse_header_dev_get 0, Call.rtnl_lock, Call.ethnl_ops_begin 0,
        Call.get_fecparam 0, Call.ethnl_update_bitset32 0 true]) ∧
    Call.ethnl_ops_complete ∉ [Call.nlmsg_parse 0, Call.ethnl_parse_header_dev_get 0,
        Call.rtnl_lock, Call.ethnl_ops_begin 0, Call.get_fecparam 0,
        Call.ethnl_update_bitset32 0 true] ∧
    Call.rtnl_unlock ∉ [Call.nlmsg_parse 0, Call.ethnl_parse_header_dev_get 0,
        Call.rtnl_lock, Call.ethnl_ops_begin 0, Call.get_fecparam 0,
        Call.ethnl_update_bitset32 0 true] ∧
    Call.ethnl_ops_complete ∈ [Call.ethtool_notify 31, Call.ethnl_ops_complete,
        Call.rtnl_unlock, Call.dev_put] ∧
    Call.rtnl_unlock ∈ [Call.ethtool_notify 31, Call.ethnl_ops_complete,
        Call.rtnl_unlock, Call.dev_put] :=
  (driver_calls_inside_locked_region exampleUapi
    (exampleExternals (exampleDevice 2 2 (fun _ => 0)) [⟨"LLRS", true, true⟩]) (fun _ => 0)
    ⟨⟨exampleDevice 2 2 (fun _ => 0)⟩, ⟨0, 0, 0, 0⟩⟩).1
    [Call.nlmsg_parse 0, Call.ethnl_parse_header_dev_get 0, Call.rtnl_lock,
      Call.ethnl_ops_begin 0, Call.get_fecparam 0, Call.ethnl_update_bitset32 0 true]
    (Call.set_fecparam ⟨0, 2, 6, 0⟩ 0)
    [Call.ethtool_notify 31, Call.ethnl_ops_complete, Call.rtnl_unlock, Call.dev_put]
    (by decide) rfl

/-! ## FEC_GET: collect -/

/-- C9: fec_prepare_data returns -EOPNOTSUPP and calls nothing when the driver
has no get_fecparam; returns the code of ethnl_ops_begin, having called nothing
else, when that code is negative; and otherwise calls get_fecparam once, then
ethnl_ops_complete once, stores what the driver filled in, and returns the
value get_fecparam returned, whatever its sign. -/
theorem fec_prepare_data_collect (K : Uapi) (ethnl_ops_begin : net_device → Int)
    (data : fec_reply_data) :
    (data.base.dev.ethtool_ops.get_fecparam = none →
      fec_prepare_data K ethnl_ops_begin data = (-K.EOPNOTSUPP, data, [])) ∧
    (∀ g, data.base.dev.ethtool_ops.get_fecparam = some g →
      ethnl_ops_begin data.base.dev < 0 →
      fec_prepare_data K ethnl_ops_begin data =
        (ethnl_ops_begin data.base.dev, data,
          [Call.ethnl_ops_begin (ethnl_ops_begin data.base.dev)])) ∧
    (∀ g, data.base.dev.ethtool_ops.get_fecparam = some g →
      0 ≤ ethnl_ops_begin data.base.dev →
      fec_prepare_data K ethnl_ops_begin data =
        ((g data.fec).1, { data with fec := (g data.fec).2 },
          [Call.ethnl_ops_begin (ethnl_ops_begin data.base.dev),
           Call.get_fecparam (g data.fec).1, Call.ethnl_ops_complete])) := by
  rcases fec_prepare_data_paths K ethnl_ops_begin data with
    ⟨hn, h⟩ | ⟨g0, hg0, hb, h⟩ | ⟨g0, hg0, hb, h⟩
  · refine ⟨fun _ => h, fun g hg => ?_, fun g hg => ?_⟩
    · rw [hn] at hg
      cases hg
    · rw [hn] at hg
      cases hg
  · refine ⟨fun hn => ?_, fun g hg _ => h, fun g hg hb2 => ?_⟩
    · rw [hn] at hg0
      cases hg0
    · omega
  · refine ⟨fun hn => ?_, fun g hg hb2 => ?_, fun g hg _ => ?_⟩
    · rw [hn] at hg0
      cases hg0
    · omega
    · rw [hg0] at hg
      cases hg
      exact h

/-- Witness for C9: no query callback; busy token refused with -16; driver
query returning -5 after filling the struct. -/
theorem fec_prepare_data_collect_witness :
    fec_prepare_data exampleUapi (fun _ => 0) ⟨⟨⟨⟨none, none⟩⟩⟩, ⟨0, 0, 0, 0⟩⟩ =
      (-95, ⟨⟨⟨⟨none, none⟩⟩⟩, ⟨0, 0, 0, 0⟩⟩, []) ∧
    (fec_prepare_data exampleUapi (fun _ => -16)
        ⟨⟨exampleDevice 2 7 (fun _ => 0)⟩, ⟨0, 0, 0, 0⟩⟩).1 = -16 ∧
    (fec_prepare_data exampleUapi (fun _ => -16)
        ⟨⟨exampleDevice 2 7 (fun _ => 0)⟩, ⟨0, 0, 0, 0⟩⟩).2.2 = [Call.ethnl_ops_begin (-16)] ∧
    (fec_prepare_data exampleUapi (fun _ => 0)
        ⟨⟨⟨⟨some (fun p => (-5, { p with fec := 7 })), none⟩⟩⟩, ⟨0, 0, 0, 0⟩⟩).1 = -5 ∧
    (fec_prepare_data exampleUapi (fun _ => 0)
        ⟨⟨⟨⟨some (fun p => (-5, { p with fec := 7 })), none⟩⟩⟩, ⟨0, 0, 0, 0⟩⟩).2.1.fec =
          ⟨0, 0, 7, 0⟩ ∧
    (fec_prepare_data exampleUapi (fun _ => 0)
        ⟨⟨⟨⟨some (fun p => (-5, { p with fec := 7 })), none⟩⟩⟩, ⟨0, 0, 0, 0⟩⟩).2.2 =
          [Call.ethnl_ops_begin 0, Call.get_fecparam (-5), Call.ethnl_ops_complete] :=
  ⟨(fec_prepare_data_collect exampleUapi (fun _ => 0)
      ⟨⟨⟨⟨none, none⟩⟩⟩, ⟨0, 0, 0, 0⟩⟩).1 rfl,
   congrArg Prod.fst ((fec_prepare_data_collect exampleUapi (fun _ => -16)
      ⟨⟨exampleDevice 2 7 (fun _ => 0)⟩, ⟨0, 0, 0, 0⟩⟩).2.1 _ rfl (by decide)),
   congrArg (fun x => x.2.2) ((fec_prepare_data_collect exampleUapi (fun _ => -16)
      ⟨⟨exampleDevice 2 7 (fun _ => 0)⟩, ⟨0, 0, 0, 0⟩⟩).2.1 _ rfl (by decide)),
   congrArg Prod.fst ((fec_prepare_data_collect exampleUapi (fun _ => 0)
      ⟨⟨⟨⟨some (fun p => (-5, { p with fec := 7 })), none⟩⟩⟩, ⟨0, 0, 0, 0⟩⟩).2.2 _ rfl
      (by decide)),
   congrArg (fun x => x.2.1.fec) ((fec_prepare_data_collect exampleUapi (fun _ => 0)
      ⟨⟨⟨⟨some (fun p => (-5, { p with fec := 7 })), none⟩⟩⟩, ⟨0, 0, 0, 0⟩⟩).2.2 _ rfl
      (by decide)),
   congrArg (fun x => x.2.2) ((fec_prepare_data_collect exampleUapi (fun _ => 0)
      ⟨⟨⟨⟨some (fun p => (-5, { p with fec := 7 })), none⟩⟩⟩, ⟨0, 0, 0, 0⟩⟩).2.2 _ rfl
      (by decide))⟩

/-! ## FEC_GET: size and fill -/

/-- When ETHTOOL_FLAG_COMPACT_BITSETS is the single bit `k`, the compact flag
is bit `k` of the request flags. -/
theorem compact_flag_eq_testBit (K : Uapi) (req_base : ethnl_req_info) (k : Nat)
    (hk : K.ETHTOOL_FLAG_COMPACT_BITSETS = 2 ^ k) :
    decide (req_base.flags &&& K.ETHTOOL_FLAG_COMPACT_BITSETS ≠ 0) =
      req_base.flags.testBit k := by
  rw [hk, Nat.land_comm, Nat.two_pow_and]
  cases req_base.flags.testBit k <;> simp

/-- C7: fec_reply_size and fec_fill_reply hand the bitset codec the same
value vector (active_fec), the same mask (fec), the same bit count, the same
name table and the same compact flag, and the compact flag is exactly the
ETHTOOL_FLAG_COMPACT_BITSETS bit of the request flags.  Hence, for a codec
whose encoder always appends as many bytes as its size function reports,
fec_reply_size returns the number of bytes fec_fill_reply adds to the buffer. -/
theorem fec_reply_size_matches_fill_reply (K : Uapi) (C : BitsetCodec) (skb : sk_buff)
    (req_base : ethnl_req_info) (data : fec_reply_data) (k : Nat)
    (hk : K.ETHTOOL_FLAG_COMPACT_BITSETS = 2 ^ k) :
    fec_reply_size K C req_base data =
      (C.ethnl_bitset32_size data.fec.active_fec data.fec.fec K.ETHTOOL_FEC_MODE_COUNT
          K.fec_mode_names (req_base.flags.testBit k),
       [Call.ethnl_bitset32_size data.fec.active_fec data.fec.fec K.ETHTOOL_FEC_MODE_COUNT
          K.fec_mode_names (req_base.flags.testBit k)]) ∧
    fec_fill_reply K C skb req_base data =
      ((C.ethnl_put_bitset32 skb K.ETHTOOL_A_FEC_MODES data.fec.active_fec data.fec.fec
          K.ETHTOOL_FEC_MODE_COUNT K.fec_mode_names (req_base.flags.testBit k)).1,
       (C.ethnl_put_bitset32 skb K.ETHTOOL_A_FEC_MODES data.fec.active_fec data.fec.fec
          K.ETHTOOL_FEC_MODE_COUNT K.fec_mode_names (req_base.flags.testBit k)).2,
       [Call.ethnl_put_bitset32 K.ETHTOOL_A_FEC_MODES data.fec.active_fec data.fec.fec
          K.ETHTOOL_FEC_MODE_COUNT K.fec_mode_names (req_base.flags.testBit k)]) ∧
    ((∀ skb0 attrtype val mask nbits names compact,
        (((C.ethnl_put_bitset32 skb0 attrtype val mask nbits names compact).2.data.length :
            Nat) : Int) =
          (skb0.data.length : Int) + C.ethnl_bitset32_size val mask nbits names compact) →
      (fec_reply_size K C req_base data).1 =
        ((fec_fill_reply K C skb req_base data).2.1.data.length : Int) -
          (skb.data.length : Int)) := by
  have hc := compact_flag_eq_testBit K req_base k hk
  refine ⟨?_, ?_, ?_⟩
  · simp only [fec_reply_size, hc]
  · simp only [fec_fill_reply, hc]
  · intro hcodec
    simp only [fec_reply_size, fec_fill_reply]
    rw [hcodec]
    ring

/-- Witness for C7: the example codec, a verbose request (flags 6, bit 0 clear)
and a compact request (flags 7) on a buffer already holding three bytes. -/
theorem fec_reply_size_matches_fill_reply_witness :
    (fec_reply_size exampleUapi exampleCodec ⟨6⟩
        ⟨⟨exampleDevice 2 7 (fun _ => 0)⟩, ⟨0, 2, 7, 0⟩⟩).1 =
      ((fec_fill_reply exampleUapi exampleCodec ⟨[1, 2, 3]⟩ ⟨6⟩
        ⟨⟨exampleDevice 2 7 (fun _ => 0)⟩, ⟨0, 2, 7, 0⟩⟩).2.1.data.length : Int) -
        (([1, 2, 3] : List Nat).length : Int) ∧
    (fec_reply_size exampleUapi exampleCodec ⟨7⟩
        ⟨⟨exampleDevice 2 7 (fun _ => 0)⟩, ⟨0, 2, 7, 0⟩⟩).2 =
      [Call.ethnl_bitset32_size 2 7 3 ["BASER", "RS", "LLRS"] true] :=
  ⟨(fec_reply_size_matches_fill_reply exampleUapi exampleCodec ⟨[1, 2, 3]⟩ ⟨6⟩
      ⟨⟨exampleDevice 2 7 (fun _ => 0)⟩, ⟨0, 2, 7, 0⟩⟩ 0 rfl).2.2
      (fun skb0 _ val mask nbits _ compact => by
        cases compact <;> simp [exampleCodec]),
   congrArg Prod.snd (fec_reply_size_matches_fill_reply exampleUapi exampleCodec ⟨[1, 2, 3]⟩
      ⟨7⟩ ⟨⟨exampleDevice 2 7 (fun _ => 0)⟩, ⟨0, 2, 7, 0⟩⟩ 0 rfl).1⟩

/-! ## The update example of specification §8 -/

/-- C8 as stated fails: with the driver reporting active_fec = {RS} (2) and
fec = {BASER, RS, LLRS} (7), the delta that sets LLRS leaves the `fec` field
unchanged, so modified is false and there is neither a driver write nor a
notification. -/
theorem set_fec_example_llrs_already_in_fec :
    ethnl_set_fec exampleUapi
        (exampleExternals (exampleDevice 2 7 (fun _ => 0)) [⟨"LLRS", true, true⟩]) =
      (0, [Call.nlmsg_parse 0, Call.ethnl_parse_header_dev_get 0, Call.rtnl_lock,
           Call.ethnl_ops_begin 0, Call.get_fecparam 0, Call.ethnl_update_bitset32 0 false,
           Call.ethnl_ops_complete, Call.rtnl_unlock, Call.dev_put]) ∧
    (ethnl_set_fec exampleUapi
        (exampleExternals (exampleDevice 2 7 (fun _ => 0)) [⟨"LLRS", true, true⟩])).2.countP
          Call.isSetFecparam = 0 ∧
    (ethnl_set_fec exampleUapi
        (exampleExternals (exampleDevice 2 7 (fun _ => 0)) [⟨"LLRS", true, true⟩])).2.countP
          Call.isNotify = 0 := by
  decide

/-- C8, amended: the delta is applied to the `fec` field and `active_fec` is
passed on as the driver reported it.  With fec = {BASER, RS, LLRS} reported,
the delta that sets LLRS gives modified == false, no driver write, no
notification and return value 0, whatever active_fec and the driver write are.
With fec = {RS} reported, the same delta gives modified == true and exactly
one driver write, of a struct with fec = {RS, LLRS} (6) and the reported
active_fec; the handler returns what the write returned, and sends exactly one
notification when the write did not fail. -/
theorem set_fec_example_delta_on_fec_field (active_fec : Nat)
    (set_fecparam : ethtool_fecparam → Int) :
    ethnl_set_fec exampleUapi
        (exampleExternals (exampleDevice active_fec 7 set_fecparam)
          [⟨"LLRS", true, true⟩]) =
      (0, [Call.nlmsg_parse 0, Call.ethnl_parse_header_dev_get 0, Call.rtnl_lock,
           Call.ethnl_ops_begin 0, Call.get_fecparam 0, Call.ethnl_update_bitset32 0 false,
           Call.ethnl_ops_complete, Call.rtnl_unlock, Call.dev_put]) ∧
    (0 ≤ set_fecparam ⟨0, active_fec, 6, 0⟩ →
      ethnl_set_fec exampleUapi
          (exampleExternals (exampleDevice active_fec 2 set_fecparam)
            [⟨"LLRS", true, true⟩]) =
        (set_fecparam ⟨0, active_fec, 6, 0⟩,
         [Call.nlmsg_parse 0, Call.ethnl_parse_header_dev_get 0, Call.rtnl_lock,
          Call.ethnl_ops_begin 0, Call.get_fecparam 0, Call.ethnl_update_bitset32 0 true,
          Call.set_fecparam ⟨0, active_fec, 6, 0⟩ (set_fecparam ⟨0, active_fec, 6, 0⟩),
          Call.ethtool_notify 31,
          Call.ethnl_ops_complete, Call.rtnl_unlock, Call.dev_put])) ∧
    (set_fecparam ⟨0, active_fec, 6, 0⟩ < 0 →
      ethnl_set_fec exampleUapi
          (exampleExternals (exampleDevice active_fec 2 set_fecparam)
            [⟨"LLRS", true, true⟩]) =
        (set_fecparam ⟨0, active_fec, 6, 0⟩,
         [Call.nlmsg_parse 0, Call.ethnl_parse_header_dev_get 0, Call.rtnl_lock,
          Call.ethnl_ops_begin 0, Call.get_fecparam 0, Call.ethnl_update_bitset32 0 true,
          Call.set_fecparam ⟨0, active_fec, 6, 0⟩ (set_fecparam ⟨0, active_fec, 6, 0⟩),
          Call.ethnl_ops_complete, Call.rtnl_unlock, Call.dev_put])) := by
  have hupd7 : spec_update_bitset32 22 7 3 [⟨"LLRS", true, true⟩] ["BASER", "RS", "LLRS"] =
      (0, 7, false) := by decide
  have hupd2 : spec_update_bitset32 22 2 3 [⟨"LLRS", true, true⟩] ["BASER", "RS", "LLRS"] =
      (0, 6, true) := by decide
  refine ⟨?_, ?_, ?_⟩
  · simp [ethnl_set_fec, exampleExternals, exampleDevice, exampleUapi, hupd7, out_ops,
      out_rtnl, out_dev]
  · intro hs
    simp [ethnl_set_fec, exampleExternals, exampleDevice, exampleUapi, hupd2, out_ops,
      out_rtnl, out_dev, not_lt.mpr hs]
  · intro hs
    simp [ethnl_set_fec, exampleExternals, exampleDevice, exampleUapi, hupd2, out_ops,
      out_rtnl, out_dev, hs]

/-- Witness for C8 (amended): active_fec = {RS}, a driver write that succeeds
and a driver write that fails with -5. -/
theorem set_fec_example_delta_on_fec_field_witness :
    ethnl_set_fec exampleUapi
        (exampleExternals (exampleDevice 2 2 (fun _ => 0)) [⟨"LLRS", true, true⟩]) =
      (0, [Call.nlmsg_parse 0, Call.ethnl_parse_header_dev_get 0, Call.rtnl_lock,
           Call.ethnl_ops_begin 0, Call.get_fecparam 0, Call.ethnl_update_bitset32 0 true,
           Call.set_fecparam ⟨0, 2, 6, 0⟩ 0, Call.ethtool_notify 31,
           Call.ethnl_ops_complete, Call.rtnl_unlock, Call.dev_put]) ∧
    ethnl_set_fec exampleUapi
        (exampleExternals (exampleDevice 2 2 (fun _ => -5)) [⟨"LLRS", true, true⟩]) =
      (-5, [Call.nlmsg_parse 0, Call.ethnl_parse_header_dev_get 0, Call.rtnl_lock,
           Call.ethnl_ops_begin 0, Call.get_fecparam 0, Call.ethnl_update_bitset32 0 true,
           Call.set_fecparam ⟨0, 2, 6, 0⟩ (-5),
           Call.ethnl_ops_complete, Call.rtnl_unlock, Call.dev_put]) :=
  ⟨(set_fec_example_delta_on_fec_field 2 (fun _ => 0)).2.1 (by decide),
   (set_fec_example_delta_on_fec_field 2 (fun _ => -5)).2.2 (by decide)⟩

/-! ## Further instances -/

/-- Witness for C6: a driver write is reached and succeeds, so the notification
is sent. -/
theorem set_fec_notify_iff_write_succeeded_witness :
    ∃ cmd, Call.ethtool_notify cmd ∈ (ethnl_set_fec exampleUapi
      (exampleExternals (exampleDevice 2 2 (fun _ => 0)) [⟨"LLRS", true, true⟩])).2 :=
  (set_fec_notify_iff_write_succeeded exampleUapi
    (exampleExternals (exampleDevice 2 2 (fun _ => 0)) [⟨"LLRS", true, true⟩])).1.mpr
    ⟨⟨0, 2, 6, 0⟩, 0, by decide, by decide⟩

end Fec
